import Mathlib

/-!
# Verification of the material in/out approval tool (`app.py`)

A shallow embedding of the workflow core of `app.py` (v2.6.1): the request
table CRUD, the approval-step logic, the photo requirements, the execution
upsert, and the page-level handlers that drive the state transitions.
Database tables are embedded as Lean lists of row structures; the SQL
point reads/updates become list operations with the same semantics.
-/

namespace GateApp

/-- `REQ_STATUS` from app.py: the five request lifecycle labels. -/
def REQ_STATUS : List String :=
  ["PENDING_APPROVAL", "APPROVED", "REJECTED", "EXECUTING", "DONE"]

/-- `KIND_IN` from app.py. -/
def KIND_IN : String := "IN"

/-- `KIND_OUT` from app.py. -/
def KIND_OUT : String := "OUT"

/-- `EXEC_REQUIRED_PHOTOS` from app.py: the three required photo slots
(key, label). -/
def EXEC_REQUIRED_PHOTOS : List (String × String) :=
  [("pre_load", "상차 전(촬영)"),
   ("post_load", "상차 후(촬영)"),
   ("area_ctrl", "하역/통제구간(촬영)")]

/-- A row of the `requests` table (schema in `db_init_and_migrate`).
`id`, `created_at`, `updated_at`, `status`, `kind` are NOT NULL and always
written by `req_insert`; the remaining columns are nullable. -/
structure ReqRow where
  id : String
  created_at : String
  updated_at : String
  status : String
  kind : String
  company_name : Option String
  item_name : Option String
  item_type : Option String
  work_type : Option String
  date : Option String
  time_from : Option String
  time_to : Option String
  gate : Option String
  vehicle_type : Option String
  vehicle_ton : Option String
  vehicle_count : Option Int
  driver_name : Option String
  driver_phone : Option String
  notes : Option String
  requester_name : Option String
  requester_role : Option String
  risk_level : Option String
  sic_training_url : Option String
deriving DecidableEq, Repr

/-- The `data` dict passed to `req_insert` (built in `page_request`).
It may carry a `status` entry, but the dict comprehension in `req_insert`
(app.py lines 264-270) excludes `id`, `created_at`, `updated_at` and
`status` from the spread, so those entries are never read. -/
structure ReqData where
  status : Option String
  kind : String
  company_name : Option String
  item_name : Option String
  item_type : Option String
  work_type : Option String
  date : Option String
  time_from : Option String
  time_to : Option String
  gate : Option String
  vehicle_type : Option String
  vehicle_ton : Option String
  vehicle_count : Option Int
  driver_name : Option String
  driver_phone : Option String
  notes : Option String
  requester_name : Option String
  requester_role : Option String
  risk_level : Option String
  sic_training_url : Option String
deriving DecidableEq, Repr

/-- A row of the `approvals` table. -/
structure ApprovalRow where
  id : String
  req_id : String
  step_no : Nat
  role_required : String
  status : String
  signer_name : Option String
  signer_role : Option String
  sign_png_path : Option String
  stamp_png_path : Option String
  signed_at : Option String
  reject_reason : Option String
  created_at : String
deriving DecidableEq, Repr

/-- A row of the `executions` table (primary key `req_id`). -/
structure ExecRow where
  req_id : String
  executed_by : String
  executed_role : String
  executed_at : String
  check_json : String
  required_photo_ok : Nat
  notes : String
deriving DecidableEq, Repr

/-- A row of the `photos` table. -/
structure PhotoRow where
  id : String
  req_id : String
  slot_key : Option String
  label : Option String
  file_path : String
  created_at : String
deriving DecidableEq, Repr

/-- The audit-log row shape described by the documentation: (request id,
action name, actor, actor role, detail, timestamp).  `db_init_and_migrate`
(app.py lines 132-223) creates tables `settings`, `requests`, `approvals`,
`executions`, `photos`, `outputs` and nothing else: there is no audit-log
table, and no function in app.py writes such a row.  The structure exists so
that statements about audit entries can be made; the `audit_log` component
of `DB` below is accordingly never written by any embedded operation,
faithful to the source. -/
structure AuditLogEntry where
  req_id : String
  action : String
  actor : String
  actor_role : String
  detail : String
  timestamp : String
deriving DecidableEq, Repr

/-- The table names created by `db_init_and_migrate` (app.py lines 132-223). -/
def dbInitTables : List String :=
  ["settings", "requests", "approvals", "executions", "photos", "outputs"]

/-- The database state: the tables of `db_init_and_migrate` that the
workflow writes (the `settings` and `outputs` tables only affect artifact
paths and configuration values, which are passed as parameters where read),
plus the audit log posited by the documentation (see `AuditLogEntry`). -/
structure DB where
  requests : List ReqRow
  approvals : List ApprovalRow
  executions : List ExecRow
  photos : List PhotoRow
  audit_log : List AuditLogEntry
deriving DecidableEq, Repr

/-- The empty database produced by `db_init_and_migrate` on a fresh file. -/
def dbInit : DB := ⟨[], [], [], [], []⟩

/-- `req_insert` (app.py lines 254-274): builds the inserted row.  `id` is a
fresh uuid (parameter `rid`), `created_at`/`updated_at` are `now_str()`
(parameter `now`), `status` is the literal `"PENDING_APPROVAL"`; every other
column is taken from `data`, whose own `status` entry is excluded by the
dict comprehension and hence ignored. -/
def req_insert_row (rid now : String) (data : ReqData) : ReqRow :=
  { id := rid
    created_at := now
    updated_at := now
    status := "PENDING_APPROVAL"
    kind := data.kind
    company_name := data.company_name
    item_name := data.item_name
    item_type := data.item_type
    work_type := data.work_type
    date := data.date
    time_from := data.time_from
    time_to := data.time_to
    gate := data.gate
    vehicle_type := data.vehicle_type
    vehicle_ton := data.vehicle_ton
    vehicle_count := data.vehicle_count
    driver_name := data.driver_name
    driver_phone := data.driver_phone
    notes := data.notes
    requester_name := data.requester_name
    requester_role := data.requester_role
    risk_level := data.risk_level
    sic_training_url := data.sic_training_url }

/-- `req_update_status` (app.py lines 275-278):
`UPDATE requests SET status=?, updated_at=? WHERE id=?`. -/
def req_update_status (db : DB) (rid status now : String) : DB :=
  { db with requests :=
      db.requests.map (fun r =>
        if r.id = rid then { r with status := status, updated_at := now } else r) }

/-- `req_get` (app.py lines 279-283): `SELECT * FROM requests WHERE id=?`. -/
def req_get (db : DB) (rid : String) : Option ReqRow :=
  db.requests.find? (fun r => r.id == rid)

/-- The WHERE clause of `req_list` (app.py lines 284-298).  In Python,
`if status:` adds the `status=?` clause only when `status` is truthy, so a
`None` or empty-string filter matches every row; likewise for `kind`. -/
def req_matches (status kind : Option String) (r : ReqRow) : Bool :=
  (match status with
   | none => true
   | some s => if s = "" then true else r.status == s)
  &&
  (match kind with
   | none => true
   | some k => if k = "" then true else r.kind == k)

/-- Insertion into a list kept in descending `created_at` order: models one
step of the `ORDER BY created_at DESC` sort of `req_list`. -/
def insertDesc (r : ReqRow) : List ReqRow → List ReqRow
  | [] => [r]
  | x :: xs => if x.created_at ≤ r.created_at then r :: x :: xs else x :: insertDesc r xs

/-- `ORDER BY created_at DESC` of `req_list`, as an insertion sort. -/
def sortDesc : List ReqRow → List ReqRow
  | [] => []
  | x :: xs => insertDesc x (sortDesc xs)

/-- `req_list` (app.py lines 284-298):
`SELECT * FROM requests [WHERE ...] ORDER BY created_at DESC LIMIT ?`. -/
def req_list (rows : List ReqRow) (status kind : Option String) (limit : Nat) :
    List ReqRow :=
  (sortDesc (rows.filter (req_matches status kind))).take limit

/-- The role list chosen by `approvals_create_default` (app.py line 310):
`routing.get(kind, ["공사"]) or ["공사"]` — the one-step default applies both
when the direction key is missing and when its value is an empty list. -/
def routing_roles (routing : List (String × List String)) (kind : String) :
    List String :=
  match routing.lookup kind with
  | none => ["공사"]
  | some l => if l.isEmpty then ["공사"] else l

/-- The loop body of `approvals_create_default` (app.py lines 312-316):
`for i, role in enumerate(roles, start=1)` inserts one `PENDING` step per
role, numbered from `start`.  `ids` supplies the per-step uuids. -/
def mkSteps (ids : Nat → String) (rid now : String) :
    Nat → List String → List ApprovalRow
  | _, [] => []
  | i, role :: rest =>
      { id := ids i, req_id := rid, step_no := i, role_required := role,
        status := "PENDING", signer_name := none, signer_role := none,
        sign_png_path := none, stamp_png_path := none, signed_at := none,
        reject_reason := none, created_at := now }
        :: mkSteps ids rid now (i + 1) rest

/-- `approvals_create_default` (app.py lines 308-317): the approval rows
inserted for a fresh request. -/
def approvals_create_default (ids : Nat → String)
    (routing : List (String × List String)) (rid kind now : String) :
    List ApprovalRow :=
  mkSteps ids rid now 1 (routing_roles routing kind)

/-- `approval_mark` (app.py lines 339-371).  Returns the new database state
together with the `(rid, message)` pair the Python function returns.  The
step row is looked up by primary key; a non-`PENDING` step short-circuits
with no write; `APPROVE` marks the step, then flips the request to
`APPROVED` when `COUNT(*)` of the request's `PENDING` steps is zero; any
other action marks the step `REJECTED` and flips the request to `REJECTED`
unconditionally. -/
def approval_mark (db : DB) (approval_id action signer_name signer_role : String)
    (sign_path stamp_path : Option String) (reject_reason : String)
    (now : String) : DB × String × String :=
  match db.approvals.find? (fun a => a.id == approval_id) with
  | none => (db, "", "승인항목을 찾지 못했습니다.")
  | some row =>
    let rid := row.req_id
    if row.status ≠ "PENDING" then (db, rid, "이미 처리된 승인입니다.")
    else if action = "APPROVE" then
      let approvals1 := db.approvals.map (fun a =>
        if a.id = approval_id then
          { a with status := "APPROVED", signer_name := some signer_name,
                   signer_role := some signer_role, sign_png_path := sign_path,
                   stamp_png_path := stamp_path, signed_at := some now }
        else a)
      let db1 := { db with approvals := approvals1 }
      let left := approvals1.countP (fun a =>
        decide (a.req_id = rid ∧ a.status = "PENDING"))
      if left = 0 then
        (req_update_status db1 rid "APPROVED" now, rid, "최종 승인 완료")
      else
        (db1, rid, "승인 완료(다음 승인자 대기)")
    else
      let approvals1 := db.approvals.map (fun a =>
        if a.id = approval_id then
          { a with status := "REJECTED", signer_name := some signer_name,
                   signer_role := some signer_role,
                   reject_reason := some reject_reason, signed_at := some now }
        else a)
      (req_update_status { db with approvals := approvals1 } rid "REJECTED" now,
       rid, "반려 처리 완료")

/-- Python's `str.strip()` with no argument: remove leading and trailing
whitespace characters. -/
def py_strip (s : String) : String :=
  ⟨((s.data.dropWhile Char.isWhitespace).reverse.dropWhile
      Char.isWhitespace).reverse⟩

/-- The reject-button handler of `page_approval` (app.py lines 995-1006):
`if not reject_reason.strip(): st.error(...)` — an empty or whitespace-only
reason is refused before `approval_mark` is called; otherwise
`approval_mark(..., "REJECT", ..., reject_reason.strip())` runs. -/
def page_approval_reject (db : DB) (approval_id signer_name signer_role
    reject_reason now : String) : DB × String :=
  if py_strip reject_reason = "" then
    (db, "반려 사유를 입력해주세요.")
  else
    let res := approval_mark db approval_id "REJECT" signer_name signer_role
      none none (py_strip reject_reason) now
    (res.1, res.2.2)

/-- `photos_for_req` (app.py lines 388-391):
`SELECT * FROM photos WHERE req_id=?` (creation order preserved). -/
def photos_for_req (db : DB) (rid : String) : List PhotoRow :=
  db.photos.filter (fun p => p.req_id == rid)

/-- `required_photos_ok` (app.py lines 392-395): collect the truthy
`slot_key`s of the request's photos (`p.get("slot_key")` is falsy for `NULL`
and for the empty string) and check every required key is among them. -/
def required_photos_ok (db : DB) (rid : String) : Bool :=
  let keys := (photos_for_req db rid).filterMap (fun p =>
    match p.slot_key with
    | none => none
    | some s => if s = "" then none else some s)
  EXEC_REQUIRED_PHOTOS.all (fun kp => keys.contains kp.1)

/-- `photo_add` (app.py lines 375-387): inserts one photo row (the file
write is I/O; `fpath` carries the resulting path). -/
def photo_add (db : DB) (pid rid : String) (slot_key label : Option String)
    (fpath now : String) : DB :=
  { db with photos := db.photos ++
      [{ id := pid, req_id := rid, slot_key := slot_key, label := label,
         file_path := fpath, created_at := now }] }

/-- The table effect of SQLite's
`INSERT ... ON CONFLICT(req_id) DO UPDATE SET <all fields>=excluded.<...>`
used by `execution_upsert`: if a row with the new row's primary key exists
it is replaced wholesale, otherwise the new row is appended. -/
def exec_upsert_list (l : List ExecRow) (row : ExecRow) : List ExecRow :=
  if l.any (fun e => e.req_id == row.req_id) then
    l.map (fun e => if e.req_id = row.req_id then row else e)
  else
    l ++ [row]

/-- `execution_upsert` (app.py lines 412-426): build the new row (with
`required_photo_ok` recomputed from the photos table) and upsert it by
`req_id`. -/
def execution_upsert (db : DB) (rid executed_by executed_role now
    check_json notes : String) : DB :=
  let ok : Nat := if required_photos_ok db rid then 1 else 0
  let row : ExecRow :=
    { req_id := rid, executed_by := executed_by, executed_role := executed_role,
      executed_at := now, check_json := check_json,
      required_photo_ok := ok, notes := notes }
  { db with executions := exec_upsert_list db.executions row }

/-- The status adjustment at the top of `page_execute` (app.py lines
1032-1035): a request whose status is `APPROVED`, `EXECUTING` or `DONE` is
set to `EXECUTING`; any other status only draws a warning ("이 건은 아직
승인 완료가 아닙니다") and the page continues. -/
def page_execute_view (db : DB) (rid now : String) : DB :=
  match req_get db rid with
  | none => db
  | some req =>
      if req.status = "APPROVED" ∨ req.status = "EXECUTING" ∨ req.status = "DONE"
      then req_update_status db rid "EXECUTING" now
      else db

/-- The execute-button handler of `page_execute` (app.py lines 1063-1068):
if `required_photos_ok` fails the click only shows an error and mutates
nothing; otherwise `execution_upsert` runs and the request status is set to
`DONE`.  The boolean result records success. -/
def page_execute_submit (db : DB) (rid executed_by executed_role
    check_json notes now : String) : DB × Bool :=
  if required_photos_ok db rid then
    (req_update_status
      (execution_upsert db rid executed_by executed_role now check_json notes)
      rid "DONE" now, true)
  else
    (db, false)

/-- The training-URL computation of `generate_all_outputs` (app.py lines
595-598): `(req.get("sic_training_url") or "").strip() or sic_default`;
the resulting string is passed to `qr_generate_png`, which hands it to the
QR library unchanged (app.py lines 435-440). -/
def sic_url_of (req_sic : Option String) (sic_default : String) : String :=
  let s := py_strip (req_sic.getD "")
  if s = "" then sic_default else s

/-- The user-driven state-changing operations of the application, as
dispatched by the pages: request submission (`page_request` lines 940-941),
an approve/reject click (`page_approval` via `approval_mark`), a photo
capture/upload (`photo_add`), opening the execute page on a request
(`page_execute` lines 1032-1035), and the execute-button click
(`page_execute` lines 1063-1068). -/
inductive Op where
  | submit (ids : Nat → String) (rid now : String) (data : ReqData)
      (routing : List (String × List String))
  | mark (approval_id action signer_name signer_role : String)
      (sign_path stamp_path : Option String) (reject_reason now : String)
  | addPhoto (pid rid : String) (slot_key label : Option String)
      (fpath now : String)
  | execView (rid now : String)
  | execSubmit (rid executed_by executed_role check_json notes now : String)

/-- One user action applied to the database. -/
def step (op : Op) (db : DB) : DB :=
  match op with
  | .submit ids rid now data routing =>
      { db with
        requests := db.requests ++ [req_insert_row rid now data],
        approvals := db.approvals ++
          approvals_create_default ids routing rid data.kind now }
  | .mark aid action sname srole sp stp reason now =>
      (approval_mark db aid action sname srole sp stp reason now).1
  | .addPhoto pid rid slot label fpath now =>
      photo_add db pid rid slot label fpath now
  | .execView rid now => page_execute_view db rid now
  | .execSubmit rid eby erole cj notes now =>
      (page_execute_submit db rid eby erole cj notes now).1

/-- A sequence of user actions applied in order. -/
def run (ops : List Op) (db : DB) : DB :=
  ops.foldl (fun d o => step o d) db

/-! ## Helper lemmas -/

theorem requests_update_mem {db : DB} {rid s now : String} {r : ReqRow}
    (h : r ∈ (req_update_status db rid s now).requests) :
    r.status = s ∨ ∃ r0 ∈ db.requests, r.status = r0.status := by
  simp only [req_update_status, List.mem_map] at h
  obtain ⟨r0, hr0, hmap⟩ := h
  by_cases hid : r0.id = rid
  · simp [hid] at hmap
    left
    rw [← hmap]
  · simp [hid] at hmap
    right
    exact ⟨r0, hr0, by rw [← hmap]⟩

theorem approval_mark_requests_mem {db : DB}
    {aid action sname srole rr now : String} {sp stp : Option String} {r : ReqRow}
    (h : r ∈ (approval_mark db aid action sname srole sp stp rr now).1.requests) :
    r.status = "APPROVED" ∨ r.status = "REJECTED" ∨
      ∃ r0 ∈ db.requests, r.status = r0.status := by
  unfold approval_mark at h
  rcases hf : db.approvals.find? (fun a => a.id == aid) with _ | row
  · rw [hf] at h
    exact Or.inr (Or.inr ⟨r, h, rfl⟩)
  · rw [hf] at h
    simp only at h
    split at h
    · exact Or.inr (Or.inr ⟨r, h, rfl⟩)
    · split at h
      · split at h
        · rcases requests_update_mem h with h1 | h1
          · exact Or.inl h1
          · exact Or.inr (Or.inr h1)
        · exact Or.inr (Or.inr ⟨r, h, rfl⟩)
      · rcases requests_update_mem h with h1 | h1
        · exact Or.inr (Or.inl h1)
        · exact Or.inr (Or.inr h1)

theorem execution_upsert_requests (db : DB)
    (rid eby erole now cj notes : String) :
    (execution_upsert db rid eby erole now cj notes).requests = db.requests := rfl

theorem execution_upsert_photos (db : DB)
    (rid eby erole now cj notes : String) :
    (execution_upsert db rid eby erole now cj notes).photos = db.photos := rfl

/-! ## Concrete demonstration data -/

/-- A pending approval-step row used to exercise `approval_mark`. -/
def demoStepPending : ApprovalRow :=
  { id := "a1", req_id := "r1", step_no := 1, role_required := "안전",
    status := "PENDING", signer_name := none, signer_role := none,
    sign_png_path := none, stamp_png_path := none, signed_at := none,
    reject_reason := none, created_at := "t0" }

/-- An already-approved approval-step row. -/
def demoStepApproved : ApprovalRow :=
  { demoStepPending with id := "a2", step_no := 2, role_required := "공사",
                         status := "APPROVED" }

/-- A pending request row. -/
def demoReq : ReqRow :=
  { id := "r1", created_at := "t0", updated_at := "t0",
    status := "PENDING_APPROVAL", kind := "OUT",
    company_name := some "ACME", item_name := some "rebar", item_type := none,
    work_type := none, date := some "2026-10-12", time_from := some "06:00",
    time_to := some "07:00", gate := some "1GATE", vehicle_type := none,
    vehicle_ton := none, vehicle_count := some 1, driver_name := none,
    driver_phone := none, notes := none, requester_name := some "홍길동",
    requester_role := some "협력사", risk_level := some "LOW",
    sic_training_url := none }

/-- A database holding one pending request with one pending and one
already-approved step. -/
def demoDB : DB :=
  { requests := [demoReq],
    approvals := [demoStepPending, demoStepApproved],
    executions := [], photos := [], audit_log := [] }

/-! ## Claim theorems -/

/-- **C4.** For every approval step whose status is not `PENDING`, calling
`approval_mark` on that step returns the invalid-state message
"이미 처리된 승인입니다." and leaves the entire database state unchanged
(every field of the approval row and of the request row included): the
function returns before issuing any `UPDATE`. -/
theorem approval_mark_nonpending_no_mutation (db : DB)
    (aid action sname srole rr now : String) (sp stp : Option String)
    (a : ApprovalRow)
    (h1 : db.approvals.find? (fun b => b.id == aid) = some a)
    (h2 : a.status ≠ "PENDING") :
    approval_mark db aid action sname srole sp stp rr now =
      (db, a.req_id, "이미 처리된 승인입니다.") := by
  unfold approval_mark
  rw [h1]
  simp [h2]

/-- Witness for C4 at a concrete state: marking the already-approved step
`a2` of `demoDB` fails and mutates nothing. -/
theorem approval_mark_nonpending_no_mutation_witness :
    approval_mark demoDB "a2" "APPROVE" "김공사" "공사" none none "" "t9" =
      (demoDB, "r1", "이미 처리된 승인입니다.") :=
  approval_mark_nonpending_no_mutation demoDB "a2" "APPROVE" "김공사" "공사"
    "" "t9" none none demoStepApproved (by decide) (by decide)

/-- **C5.** The reject button of `page_approval` refuses an empty or
whitespace-only reason before any mutation: the database is returned
unchanged with the validation message; only when the trimmed reason is
non-empty does it invoke `approval_mark` with action `REJECT` (so a reject
is recorded only with a non-empty reason). -/
theorem reject_requires_reason (db : DB)
    (aid sname srole reason now : String) :
    (py_strip reason = "" →
      page_approval_reject db aid sname srole reason now =
        (db, "반려 사유를 입력해주세요."))
    ∧ (py_strip reason ≠ "" →
      page_approval_reject db aid sname srole reason now =
        ((approval_mark db aid "REJECT" sname srole none none
            (py_strip reason) now).1,
         (approval_mark db aid "REJECT" sname srole none none
            (py_strip reason) now).2.2)) := by
  constructor
  · intro h
    unfold page_approval_reject
    simp [h]
  · intro h
    unfold page_approval_reject
    simp [h]

/-- Witness for C5 at a concrete state: a whitespace-only reason leaves
`demoDB` untouched, while the step `a1` stays `PENDING` and the request
stays `PENDING_APPROVAL`. -/
theorem reject_requires_reason_witness :
    page_approval_reject demoDB "a1" "김안전" "안전" "   " "t9" =
      (demoDB, "반려 사유를 입력해주세요.") ∧
    demoStepPending.status = "PENDING" ∧
    demoReq.status = "PENDING_APPROVAL" :=
  ⟨(reject_requires_reason demoDB "a1" "김안전" "안전" "   " "t9").1 (by decide),
   rfl, rfl⟩

/-- **C7 counterexample.** The claim says normalization prepends
`https://` when the URL has no scheme, so that normalizing `example.com`
yields `https://example.com`.  The code computes the QR payload as
`(req.get("sic_training_url") or "").strip() or sic_default` and passes it
to `qrcode.make` unchanged: for the request URL `example.com` the encoded
payload is the bare string `example.com`. -/
theorem sic_url_no_scheme_prepended :
    sic_url_of (some "example.com") "https://example.com/visitor-training" =
      "example.com" ∧
    "example.com" ≠ "https://example.com" := by
  constructor
  · rfl
  · decide

/-- **C7 (amended).** Before the training URL is encoded into the QR code
it is only trimmed of surrounding whitespace, with the site default
substituted when the trimmed string is empty; no scheme is ever prepended.
In particular `" https://x.com "` is encoded as `"https://x.com"` (the
spec's second example holds), but a scheme-less string is encoded as-is. -/
theorem sic_url_trim_only (s d : String) :
    (sic_url_of (some s) d = py_strip s ∨
      (py_strip s = "" ∧ sic_url_of (some s) d = d))
    ∧ sic_url_of (some " https://x.com ") d = "https://x.com"
    ∧ sic_url_of none d = d := by
  refine ⟨?_, ?_, ?_⟩
  · unfold sic_url_of
    by_cases h : py_strip s = ""
    · right
      simp [h]
    · left
      simp [Option.getD, h]
  · rfl
  · unfold sic_url_of
    rfl

theorem mkSteps_length (ids : Nat → String) (rid now : String) :
    ∀ (roles : List String) (i : Nat),
      (mkSteps ids rid now i roles).length = roles.length := by
  intro roles
  induction roles with
  | nil => intro i; rfl
  | cons role rest ih =>
      intro i
      simp [mkSteps, ih (i + 1)]

theorem mkSteps_step_no (ids : Nat → String) (rid now : String) :
    ∀ (roles : List String) (i : Nat),
      (mkSteps ids rid now i roles).map (fun st => st.step_no) =
        List.range' i roles.length := by
  intro roles
  induction roles with
  | nil => intro i; rfl
  | cons role rest ih =>
      intro i
      simp [mkSteps, List.range'_succ, ih (i + 1)]

theorem mkSteps_fields (ids : Nat → String) (rid now : String) :
    ∀ (roles : List String) (i : Nat), ∀ st ∈ mkSteps ids rid now i roles,
      st.status = "PENDING" ∧ st.req_id = rid ∧ st.role_required ∈ roles := by
  intro roles
  induction roles with
  | nil => intro i st h; simp [mkSteps] at h
  | cons role rest ih =>
      intro i st h
      simp only [mkSteps, List.mem_cons] at h
      rcases h with h | h
      · subst h
        exact ⟨rfl, rfl, by simp⟩
      · obtain ⟨h1, h2, h3⟩ := ih (i + 1) st h
        exact ⟨h1, h2, by simp [h3]⟩

theorem routing_roles_ne_nil (routing : List (String × List String))
    (kind : String) : routing_roles routing kind ≠ [] := by
  unfold routing_roles
  rcases routing.lookup kind with _ | l
  · simp
  · simp only
    split
    · simp
    · rename_i h
      simpa [List.isEmpty_iff] using h

/-- **C9.** `req_insert` always creates the request with status
`PENDING_APPROVAL` and server-generated `id`/`created_at`/`updated_at`,
ignoring any `status` entry the caller put in `data`; and
`approvals_create_default` always attaches at least one approval step, with
step numbers running consecutively from 1 (every step created `PENDING` on
the request), falling back to the one-step `["공사"]` route when the
routing configuration has no entry for the direction or an empty one. -/
theorem submit_defaults (rid now kind : String) (data : ReqData)
    (ids : Nat → String) (routing : List (String × List String)) :
    (req_insert_row rid now data).status = "PENDING_APPROVAL"
    ∧ (req_insert_row rid now data).id = rid
    ∧ (req_insert_row rid now data).created_at = now
    ∧ (req_insert_row rid now data).updated_at = now
    ∧ 1 ≤ (approvals_create_default ids routing rid kind now).length
    ∧ (approvals_create_default ids routing rid kind now).map
        (fun st => st.step_no) =
        List.range' 1 (approvals_create_default ids routing rid kind now).length
    ∧ (∀ st ∈ approvals_create_default ids routing rid kind now,
        st.status = "PENDING" ∧ st.req_id = rid)
    ∧ routing_roles [] kind = ["공사"]
    ∧ routing_roles [(kind, [])] kind = ["공사"] := by
  refine ⟨rfl, rfl, rfl, rfl, ?_, ?_, ?_, rfl, ?_⟩
  · unfold approvals_create_default
    rw [mkSteps_length]
    have h := routing_roles_ne_nil routing kind
    cases hr : routing_roles routing kind with
    | nil => exact absurd hr h
    | cons a l => simp
  · unfold approvals_create_default
    rw [mkSteps_length, mkSteps_step_no]
  · intro st hst
    exact ⟨(mkSteps_fields ids rid now _ 1 st hst).1,
           (mkSteps_fields ids rid now _ 1 st hst).2.1⟩
  · simp [routing_roles, List.lookup]

theorem DB_eq_of_parts {a b : DB} (h1 : a.requests = b.requests)
    (h2 : a.approvals = b.approvals) (h3 : a.executions = b.executions)
    (h4 : a.photos = b.photos) (h5 : a.audit_log = b.audit_log) : a = b := by
  cases a; cases b; simp_all

theorem exec_upsert_list_any (l : List ExecRow) (row : ExecRow) :
    (exec_upsert_list l row).any (fun e => e.req_id == row.req_id) = true := by
  unfold exec_upsert_list
  split
  · rename_i h
    rw [List.any_map]
    simp only [List.any_eq_true, beq_iff_eq] at h ⊢
    obtain ⟨e, he, heq⟩ := h
    exact ⟨e, he, by simp [Function.comp, heq]⟩
  · simp

theorem exec_upsert_list_overwrite (l : List ExecRow) (row1 row2 : ExecRow)
    (h : row1.req_id = row2.req_id) :
    exec_upsert_list (exec_upsert_list l row1) row2 =
      exec_upsert_list l row2 := by
  have hany := exec_upsert_list_any l row1
  rw [h] at hany
  unfold exec_upsert_list at hany ⊢
  by_cases h0 : l.any (fun e => e.req_id == row1.req_id) = true
  · rw [if_pos h0]
    rw [if_pos h0] at hany
    have h0a : l.any (fun e => e.req_id == row2.req_id) = true := by
      rw [← h]; exact h0
    rw [if_pos hany, if_pos h0a, List.map_map]
    refine List.map_congr_left (fun e he => ?_)
    by_cases hid : e.req_id = row2.req_id
    · simp [Function.comp, hid, ← h]
    · have hid1 : ¬ e.req_id = row1.req_id := fun hc => hid (hc.trans h)
      simp [Function.comp, hid, hid1]
  · rw [if_neg h0]
    rw [if_neg h0] at hany
    have h0a : ¬ l.any (fun e => e.req_id == row2.req_id) = true := by
      rw [← h]; exact h0
    rw [if_pos hany, if_neg h0a, List.map_append]
    have hne : ∀ e ∈ l, ¬ e.req_id = row2.req_id := by
      intro e he hc
      rw [← h] at hc
      exact h0 (List.any_eq_true.mpr ⟨e, he, by simpa using hc⟩)
    have hl : l.map (fun e => if e.req_id = row2.req_id then row2 else e) = l := by
      have hcong : ∀ e ∈ l,
          (if e.req_id = row2.req_id then row2 else e) = id e := by
        intro e he
        simp [hne e he]
      rw [List.map_congr_left hcong, List.map_id]
    rw [hl]
    simp [h]

theorem exec_upsert_list_length (l : List ExecRow) (row : ExecRow) :
    (exec_upsert_list l row).length =
      if l.any (fun e => e.req_id == row.req_id) then l.length
      else l.length + 1 := by
  unfold exec_upsert_list
  split <;> simp_all

theorem exec_upsert_list_countP (l : List ExecRow) (row : ExecRow)
    (h : l.countP (fun e => e.req_id == row.req_id) ≤ 1) :
    (exec_upsert_list l row).countP (fun e => e.req_id == row.req_id) = 1 := by
  unfold exec_upsert_list
  split
  · rename_i hany
    rw [List.countP_map]
    have hc : l.countP ((fun e => e.req_id == row.req_id) ∘
        (fun e => if e.req_id = row.req_id then row else e)) =
        l.countP (fun e => e.req_id == row.req_id) := by
      refine List.countP_congr (fun e _ => ?_)
      by_cases hid : e.req_id = row.req_id
      · simp [Function.comp, hid]
      · simp [Function.comp, hid]
    rw [hc]
    have h1 : 0 < l.countP (fun e => e.req_id == row.req_id) := by
      rw [List.countP_pos_iff]
      rw [List.any_eq_true] at hany
      exact hany
    omega
  · rw [List.countP_append]
    rename_i hany
    have h0 : l.countP (fun e => e.req_id == row.req_id) = 0 := by
      rw [List.countP_eq_zero]
      intro e he hc
      exact hany (List.any_eq_true.mpr ⟨e, he, hc⟩)
    simp [h0]

/-- **C10.** `execution_upsert` keeps at most one execution row per request
id: when the table has at most one row for `rid`, an upsert leaves exactly
one; a second upsert for the same `rid` adds no row (the table length is
unchanged); and the whole database state after two upserts for `rid` equals
the state after the second upsert alone (every field overwritten). -/
theorem execution_upsert_overwrite (db : DB) (rid e1 r1 n1 c1 no1
    e2 r2 n2 c2 no2 : String) :
    execution_upsert (execution_upsert db rid e1 r1 n1 c1 no1)
        rid e2 r2 n2 c2 no2 =
      execution_upsert db rid e2 r2 n2 c2 no2
    ∧ (execution_upsert (execution_upsert db rid e1 r1 n1 c1 no1)
        rid e2 r2 n2 c2 no2).executions.length =
      (execution_upsert db rid e1 r1 n1 c1 no1).executions.length
    ∧ (db.executions.countP (fun e => e.req_id == rid) ≤ 1 →
      (execution_upsert db rid e1 r1 n1 c1 no1).executions.countP
        (fun e => e.req_id == rid) = 1) := by
  have hphotos : (execution_upsert db rid e1 r1 n1 c1 no1).photos = db.photos :=
    execution_upsert_photos db rid e1 r1 n1 c1 no1
  have hok : required_photos_ok (execution_upsert db rid e1 r1 n1 c1 no1) rid =
      required_photos_ok db rid := by
    unfold required_photos_ok photos_for_req
    rw [hphotos]
  have hexe : (execution_upsert (execution_upsert db rid e1 r1 n1 c1 no1)
      rid e2 r2 n2 c2 no2).executions =
      (execution_upsert db rid e2 r2 n2 c2 no2).executions := by
    show exec_upsert_list
        (exec_upsert_list db.executions
          { req_id := rid, executed_by := e1, executed_role := r1,
            executed_at := n1, check_json := c1,
            required_photo_ok := if required_photos_ok db rid then 1 else 0,
            notes := no1 })
        { req_id := rid, executed_by := e2, executed_role := r2,
          executed_at := n2, check_json := c2,
          required_photo_ok :=
            if required_photos_ok (execution_upsert db rid e1 r1 n1 c1 no1) rid
            then 1 else 0,
          notes := no2 } =
      exec_upsert_list db.executions
        { req_id := rid, executed_by := e2, executed_role := r2,
          executed_at := n2, check_json := c2,
          required_photo_ok := if required_photos_ok db rid then 1 else 0,
          notes := no2 }
    rw [hok]
    exact exec_upsert_list_overwrite db.executions _ _ rfl
  have hmain : execution_upsert (execution_upsert db rid e1 r1 n1 c1 no1)
      rid e2 r2 n2 c2 no2 = execution_upsert db rid e2 r2 n2 c2 no2 :=
    DB_eq_of_parts rfl rfl hexe rfl rfl
  refine ⟨hmain, ?_, ?_⟩
  · rw [hmain]
    show (exec_upsert_list db.executions _).length =
      (exec_upsert_list db.executions _).length
    rw [exec_upsert_list_length, exec_upsert_list_length]
  · intro h
    exact exec_upsert_list_countP db.executions
      { req_id := rid, executed_by := e1, executed_role := r1,
        executed_at := n1, check_json := c1,
        required_photo_ok := if required_photos_ok db rid then 1 else 0,
        notes := no1 } h

/-- Witness for C10 at a concrete state: starting from an empty executions
table (count 0 ≤ 1), one upsert leaves exactly one row for `r1`. -/
theorem execution_upsert_overwrite_witness :
    (execution_upsert demoDB "r1" "김실행" "공사" "t5" "cj" "메모").executions.countP
      (fun e => e.req_id == "r1") = 1 :=
  (execution_upsert_overwrite demoDB "r1" "김실행" "공사" "t5" "cj" "메모"
    "김실행" "공사" "t6" "cj2" "메모2").2.2 (by decide)

theorem req_update_status_mem_id {db : DB} {rid s now : String} {r : ReqRow}
    (hr : r ∈ (req_update_status db rid s now).requests) (hid : r.id = rid) :
    r.status = s := by
  simp only [req_update_status, List.mem_map] at hr
  obtain ⟨r0, hr0, hmap⟩ := hr
  by_cases h : r0.id = rid
  · rw [if_pos h] at hmap
    rw [← hmap]
  · rw [if_neg h] at hmap
    subst hmap
    exact absurd hid h

theorem approval_mark_approve_red (db : DB) (aid sname srole rr now : String)
    (sp stp : Option String) (a : ApprovalRow)
    (h1 : db.approvals.find? (fun b => b.id == aid) = some a)
    (h2 : a.status = "PENDING") :
    approval_mark db aid "APPROVE" sname srole sp stp rr now =
      (if (db.approvals.map (fun b =>
            if b.id = aid then
              { b with status := "APPROVED", signer_name := some sname,
                       signer_role := some srole, sign_png_path := sp,
                       stamp_png_path := stp, signed_at := some now }
            else b)).countP (fun b =>
              decide (b.req_id = a.req_id ∧ b.status = "PENDING")) = 0
       then (req_update_status
              { db with approvals := db.approvals.map (fun b =>
                  if b.id = aid then
                    { b with status := "APPROVED", signer_name := some sname,
                             signer_role := some srole, sign_png_path := sp,
                             stamp_png_path := stp, signed_at := some now }
                  else b) } a.req_id "APPROVED" now,
             a.req_id, "최종 승인 완료")
       else ({ db with approvals := db.approvals.map (fun b =>
                  if b.id = aid then
                    { b with status := "APPROVED", signer_name := some sname,
                             signer_role := some srole, sign_png_path := sp,
                             stamp_png_path := stp, signed_at := some now }
                  else b) },
             a.req_id, "승인 완료(다음 승인자 대기)")) := by
  unfold approval_mark
  rw [h1]
  simp [h2]

theorem approval_mark_reject_red (db : DB) (aid sname srole rr now : String)
    (sp stp : Option String) (a : ApprovalRow)
    (h1 : db.approvals.find? (fun b => b.id == aid) = some a)
    (h2 : a.status = "PENDING") :
    approval_mark db aid "REJECT" sname srole sp stp rr now =
      (req_update_status
        { db with approvals := db.approvals.map (fun b =>
            if b.id = aid then
              { b with status := "REJECTED", signer_name := some sname,
                       signer_role := some srole,
                       reject_reason := some rr, signed_at := some now }
            else b) } a.req_id "REJECTED" now,
       a.req_id, "반려 처리 완료") := by
  unfold approval_mark
  rw [h1]
  simp [h2]

/-- **C2.** For a pending approval step: an `APPROVE` mark flips the
request's status to `APPROVED` exactly when no approval step of that
request remains `PENDING` afterwards (otherwise the request rows are left
untouched); and a `REJECT` mark on a pending step sets the request's status
to `REJECTED` unconditionally, however many other steps of the chain are
still pending. -/
theorem approval_chain_status (db : DB) (aid sname srole rr now : String)
    (sp stp : Option String) (a : ApprovalRow)
    (h1 : db.approvals.find? (fun b => b.id == aid) = some a)
    (h2 : a.status = "PENDING") :
    ((approval_mark db aid "APPROVE" sname srole sp stp rr now).1.approvals.countP
        (fun b => decide (b.req_id = a.req_id ∧ b.status = "PENDING")) = 0 →
      ∀ r ∈ (approval_mark db aid "APPROVE" sname srole sp stp rr now).1.requests,
        r.id = a.req_id → r.status = "APPROVED")
    ∧ ((approval_mark db aid "APPROVE" sname srole sp stp rr now).1.approvals.countP
        (fun b => decide (b.req_id = a.req_id ∧ b.status = "PENDING")) ≠ 0 →
      (approval_mark db aid "APPROVE" sname srole sp stp rr now).1.requests =
        db.requests)
    ∧ (∀ r ∈ (approval_mark db aid "REJECT" sname srole sp stp rr now).1.requests,
        r.id = a.req_id → r.status = "REJECTED") := by
  refine ⟨?_, ?_, ?_⟩
  · intro hcnt r hr hid
    rw [approval_mark_approve_red db aid sname srole rr now sp stp a h1 h2]
      at hcnt hr
    split at hr
    · exact req_update_status_mem_id hr hid
    · rename_i hleft
      rw [if_neg hleft] at hcnt
      exact absurd hcnt hleft
  · intro hcnt
    rw [approval_mark_approve_red db aid sname srole rr now sp stp a h1 h2]
      at hcnt ⊢
    split
    · rename_i hleft
      rw [if_pos hleft] at hcnt
      exact absurd hleft hcnt
    · rfl
  · intro r hr hid
    rw [approval_mark_reject_red db aid sname srole rr now sp stp a h1 h2] at hr
    exact req_update_status_mem_id hr hid

/-- Witness for C2 at a concrete state: in `demoDB` the pending step `a1`
is the only pending one, so approving it flips request `r1` to `APPROVED`;
in the two-pending-step database obtained by resetting `a2` to `PENDING`,
rejecting `a1` flips `r1` to `REJECTED` even though `a2` is still pending. -/
theorem approval_chain_status_witness :
    (∀ r ∈ (approval_mark demoDB "a1" "APPROVE" "김안전" "안전" none none ""
        "t3").1.requests, r.id = "r1" → r.status = "APPROVED")
    ∧ (∀ r ∈ (approval_mark
        { demoDB with approvals :=
            [demoStepPending, { demoStepApproved with status := "PENDING" }] }
        "a1" "REJECT" "김안전" "안전" none none "사유" "t3").1.requests,
        r.id = "r1" → r.status = "REJECTED") :=
  ⟨(approval_chain_status demoDB "a1" "김안전" "안전" "" "t3" none none
      demoStepPending (by decide) (by decide)).1 (by decide),
   (approval_chain_status
      { demoDB with approvals :=
          [demoStepPending, { demoStepApproved with status := "PENDING" }] }
      "a1" "김안전" "안전" "사유" "t3" none none
      demoStepPending (by decide) (by decide)).2.2⟩

theorem mem_insertDesc {r x : ReqRow} {l : List ReqRow} :
    x ∈ insertDesc r l ↔ x = r ∨ x ∈ l := by
  induction l with
  | nil => simp [insertDesc]
  | cons y ys ih =>
      unfold insertDesc
      split
      · simp only [List.mem_cons]
      · simp only [List.mem_cons, ih]
        tauto

theorem length_insertDesc (r : ReqRow) (l : List ReqRow) :
    (insertDesc r l).length = l.length + 1 := by
  induction l with
  | nil => rfl
  | cons y ys ih =>
      unfold insertDesc
      split
      · simp
      · simp [ih]

theorem sorted_insertDesc {r : ReqRow} {l : List ReqRow}
    (h : l.Pairwise (fun a b => b.created_at ≤ a.created_at)) :
    (insertDesc r l).Pairwise (fun a b => b.created_at ≤ a.created_at) := by
  induction l with
  | nil => simp [insertDesc]
  | cons y ys ih =>
      rw [List.pairwise_cons] at h
      unfold insertDesc
      split
      · rename_i hc
        rw [List.pairwise_cons]
        refine ⟨?_, List.pairwise_cons.mpr h⟩
        intro z hz
        rcases List.mem_cons.mp hz with hz | hz
        · rw [hz]; exact hc
        · exact le_trans (h.1 z hz) hc
      · rename_i hc
        rw [List.pairwise_cons]
        refine ⟨?_, ih h.2⟩
        intro z hz
        rcases mem_insertDesc.mp hz with hz | hz
        · rw [hz]; exact le_of_not_le hc
        · exact h.1 z hz

theorem mem_sortDesc {x : ReqRow} {l : List ReqRow} :
    x ∈ sortDesc l ↔ x ∈ l := by
  induction l with
  | nil => simp [sortDesc]
  | cons y ys ih =>
      unfold sortDesc
      rw [mem_insertDesc, ih, List.mem_cons]

theorem length_sortDesc (l : List ReqRow) :
    (sortDesc l).length = l.length := by
  induction l with
  | nil => rfl
  | cons y ys ih =>
      unfold sortDesc
      rw [length_insertDesc, ih, List.length_cons]

theorem sorted_sortDesc (l : List ReqRow) :
    (sortDesc l).Pairwise (fun a b => b.created_at ≤ a.created_at) := by
  induction l with
  | nil => simp [sortDesc]
  | cons y ys ih => exact sorted_insertDesc ih

/-- **C8.** `req_list` returns only rows of the table that match the
status/kind filter, in descending `created_at` order (newest first), and
never more than `limit` rows; moreover when `limit` is at least the number
of matching rows, every matching row is returned. -/
theorem req_list_spec (rows : List ReqRow) (status kind : Option String)
    (limit : Nat) :
    (∀ r ∈ req_list rows status kind limit,
      req_matches status kind r = true ∧ r ∈ rows)
    ∧ (req_list rows status kind limit).Pairwise
        (fun a b => b.created_at ≤ a.created_at)
    ∧ (req_list rows status kind limit).length ≤ limit
    ∧ ((rows.filter (req_matches status kind)).length ≤ limit →
        ∀ r ∈ rows, req_matches status kind r = true →
          r ∈ req_list rows status kind limit) := by
  refine ⟨?_, ?_, ?_, ?_⟩
  · intro r hr
    have h1 : r ∈ sortDesc (rows.filter (req_matches status kind)) :=
      List.mem_of_mem_take hr
    have h2 := mem_sortDesc.mp h1
    rw [List.mem_filter] at h2
    exact ⟨h2.2, h2.1⟩
  · exact List.Pairwise.sublist (List.take_sublist _ _)
      (sorted_sortDesc (rows.filter (req_matches status kind)))
  · calc (req_list rows status kind limit).length
        = min limit (sortDesc (rows.filter (req_matches status kind))).length :=
          List.length_take _ _
      _ ≤ limit := min_le_left _ _
  · intro hlen r hmem hmatch
    unfold req_list
    rw [List.take_of_length_le (by rw [length_sortDesc]; exact hlen)]
    exact mem_sortDesc.mpr (List.mem_filter.mpr ⟨hmem, hmatch⟩)

/-- Witness for C8 at a concrete state: filtering two requests by status
`PENDING_APPROVAL` with limit 10 returns the one matching row. -/
theorem req_list_spec_witness :
    req_matches (some "PENDING_APPROVAL") none demoReq = true
    ∧ demoReq ∈ req_list
        [demoReq, { demoReq with id := "r2", status := "DONE" }]
        (some "PENDING_APPROVAL") none 10 :=
  ⟨(req_list_spec [demoReq, { demoReq with id := "r2", status := "DONE" }]
      (some "PENDING_APPROVAL") none 10).1 demoReq (by decide) |>.1,
   (req_list_spec [demoReq, { demoReq with id := "r2", status := "DONE" }]
      (some "PENDING_APPROVAL") none 10).2.2.2 (by decide) demoReq (by decide)
      (by decide)⟩

theorem required_photos_ok_iff (db : DB) (rid : String) :
    required_photos_ok db rid = true ↔
      ∀ kp ∈ EXEC_REQUIRED_PHOTOS, ∃ p ∈ db.photos,
        p.req_id = rid ∧ p.slot_key = some kp.1 := by
  have hne : ∀ kp ∈ EXEC_REQUIRED_PHOTOS, kp.1 ≠ "" := by decide
  unfold required_photos_ok photos_for_req
  rw [List.all_eq_true]
  constructor
  · intro h kp hkp
    have h2 := h kp hkp
    rw [List.contains_iff_exists_mem_beq] at h2
    obtain ⟨s, hs, hbeq⟩ := h2
    rw [List.mem_filterMap] at hs
    obtain ⟨p, hp, hg⟩ := hs
    rw [List.mem_filter] at hp
    refine ⟨p, hp.1, by simpa using hp.2, ?_⟩
    rcases hslot : p.slot_key with _ | s0
    · rw [hslot] at hg; simp at hg
    · rw [hslot] at hg
      simp only at hg
      split at hg
      · simp at hg
      · have hs0 : s0 = s := by simpa using hg
        have : kp.1 = s := by simpa using hbeq
        rw [hs0, ← this]
  · intro h kp hkp
    obtain ⟨p, hp, hrid, hslot⟩ := h kp hkp
    rw [List.contains_iff_exists_mem_beq]
    refine ⟨kp.1, ?_, by simp⟩
    rw [List.mem_filterMap]
    refine ⟨p, List.mem_filter.mpr ⟨hp, by simpa using hrid⟩, ?_⟩
    rw [hslot]
    simp only
    rw [if_neg (hne kp hkp)]

/-- **C3.** `required_photos_ok` holds exactly when the request's photo set
contains all three fixed required slot keys (`pre_load`, `post_load`,
`area_ctrl`); adding a photo with slot key `"optional"` never changes the
verdict (optional photos neither satisfy a required slot nor block
anything); and the execute-button handler mutates nothing and reports
failure whenever `required_photos_ok` is false, while it succeeds whenever
the three required slots are present. -/
theorem execute_requires_photo_set (db : DB)
    (rid eby erole cj notes now : String) :
    (required_photos_ok db rid = true ↔
      ∀ kp ∈ EXEC_REQUIRED_PHOTOS, ∃ p ∈ db.photos,
        p.req_id = rid ∧ p.slot_key = some kp.1)
    ∧ (∀ pid rid2 label fpath now2,
        required_photos_ok
          (photo_add db pid rid2 (some "optional") label fpath now2) rid =
          required_photos_ok db rid)
    ∧ (required_photos_ok db rid = false →
        page_execute_submit db rid eby erole cj notes now = (db, false))
    ∧ (required_photos_ok db rid = true →
        (page_execute_submit db rid eby erole cj notes now).2 = true) := by
  have hopt : ∀ kp ∈ EXEC_REQUIRED_PHOTOS, kp.1 ≠ "optional" := by decide
  refine ⟨required_photos_ok_iff db rid, ?_, ?_, ?_⟩
  · intro pid rid2 label fpath now2
    rw [Bool.eq_iff_iff, required_photos_ok_iff, required_photos_ok_iff]
    constructor
    · intro h kp hkp
      obtain ⟨p, hp, h1, h2⟩ := h kp hkp
      rcases List.mem_append.mp hp with hp | hp
      · exact ⟨p, hp, h1, h2⟩
      · rw [List.mem_singleton] at hp
        subst hp
        simp only at h2
        exact absurd (by simpa using h2.symm) (hopt kp hkp)
    · intro h kp hkp
      obtain ⟨p, hp, h1, h2⟩ := h kp hkp
      exact ⟨p, List.mem_append_left _ hp, h1, h2⟩
  · intro h
    unfold page_execute_submit
    rw [h]
    simp
  · intro h
    unfold page_execute_submit
    rw [h]
    simp

/-- A database whose request `r1` has the three required photos plus two
optional ones. -/
def demoPhotosDB : DB :=
  { demoDB with photos :=
      [{ id := "p1", req_id := "r1", slot_key := some "pre_load",
         label := some "상차 전(촬영)", file_path := "f1", created_at := "t1" },
       { id := "p2", req_id := "r1", slot_key := some "post_load",
         label := some "상차 후(촬영)", file_path := "f2", created_at := "t2" },
       { id := "p3", req_id := "r1", slot_key := some "area_ctrl",
         label := some "하역/통제구간(촬영)", file_path := "f3", created_at := "t3" },
       { id := "p4", req_id := "r1", slot_key := some "optional",
         label := some "추가사진", file_path := "f4", created_at := "t4" },
       { id := "p5", req_id := "r1", slot_key := some "optional",
         label := some "추가사진", file_path := "f5", created_at := "t5" }] }

/-- Witness for C3 at concrete states: with no photos the execute click
fails and mutates nothing; with the three required slots (plus two optional
photos) it succeeds. -/
theorem execute_requires_photo_set_witness :
    page_execute_submit demoDB "r1" "김실행" "공사" "cj" "메모" "t7" =
      (demoDB, false)
    ∧ (page_execute_submit demoPhotosDB "r1" "김실행" "공사" "cj" "메모"
        "t7").2 = true :=
  ⟨(execute_requires_photo_set demoDB "r1" "김실행" "공사" "cj" "메모"
      "t7").2.2.1 (by decide),
   (execute_requires_photo_set demoPhotosDB "r1" "김실행" "공사" "cj" "메모"
      "t7").2.2.2 (by decide)⟩

/-- Witness for C9 at concrete inputs: a `data` dict smuggling
`status="DONE"` is still inserted as `PENDING_APPROVAL`, and an empty
routing configuration still yields the single default step numbered 1. -/
theorem submit_defaults_witness :
    (req_insert_row "r9" "t0"
      { status := some "DONE", kind := "IN", company_name := some "ACME",
        item_name := some "rebar", item_type := none, work_type := none,
        date := none, time_from := none, time_to := none, gate := none,
        vehicle_type := none, vehicle_ton := none, vehicle_count := some 1,
        driver_name := none, driver_phone := none, notes := none,
        requester_name := none, requester_role := none, risk_level := none,
        sic_training_url := none }).status = "PENDING_APPROVAL"
    ∧ (approvals_create_default (fun i => "a" ++ toString i) [] "r9" "IN"
        "t0").map (fun st => st.step_no) = [1]
    ∧ ∀ st ∈ approvals_create_default (fun i => "a" ++ toString i) [] "r9"
        "IN" "t0", st.status = "PENDING" ∧ st.req_id = "r9" := by
  refine ⟨(submit_defaults "r9" "t0" "IN" _ (fun i => "a" ++ toString i) []).1,
          ?_, (submit_defaults "r9" "t0" "IN"
            { status := some "DONE", kind := "IN", company_name := some "ACME",
              item_name := some "rebar", item_type := none, work_type := none,
              date := none, time_from := none, time_to := none, gate := none,
              vehicle_type := none, vehicle_ton := none, vehicle_count := some 1,
              driver_name := none, driver_phone := none, notes := none,
              requester_name := none, requester_role := none, risk_level := none,
              sic_training_url := none } (fun i => "a" ++ toString i)
            []).2.2.2.2.2.2.1⟩
  · have h := (submit_defaults "r9" "t0" "IN"
      { status := some "DONE", kind := "IN", company_name := some "ACME",
        item_name := some "rebar", item_type := none, work_type := none,
        date := none, time_from := none, time_to := none, gate := none,
        vehicle_type := none, vehicle_ton := none, vehicle_count := some 1,
        driver_name := none, driver_phone := none, notes := none,
        requester_name := none, requester_role := none, risk_level := none,
        sic_training_url := none } (fun i => "a" ++ toString i)
      []).2.2.2.2.2.1
    simpa using h

theorem photo_add_requests (db : DB) (pid rid : String)
    (slot label : Option String) (fpath now : String) :
    (photo_add db pid rid slot label fpath now).requests = db.requests := rfl

theorem step_status_mem {db : DB}
    (hdb : ∀ r ∈ db.requests, r.status ∈ REQ_STATUS) (op : Op) :
    ∀ r ∈ (step op db).requests, r.status ∈ REQ_STATUS := by
  cases op with
  | submit ids rid now data routing =>
      intro r hr
      rcases List.mem_append.mp hr with hr | hr
      · exact hdb r hr
      · rw [List.mem_singleton] at hr
        rw [hr]
        show "PENDING_APPROVAL" ∈ REQ_STATUS
        decide
  | mark aid action sname srole sp stp reason now =>
      intro r hr
      rcases approval_mark_requests_mem hr with h | h | ⟨r0, hr0, heq⟩
      · rw [h]; decide
      · rw [h]; decide
      · rw [heq]; exact hdb r0 hr0
  | addPhoto pid rid slot label fpath now =>
      intro r hr
      exact hdb r hr
  | execView rid now =>
      intro r hr
      simp only [step] at hr
      unfold page_execute_view at hr
      split at hr
      · exact hdb r hr
      · split at hr
        · rcases requests_update_mem hr with h | ⟨r0, hr0, heq⟩
          · rw [h]; decide
          · rw [heq]; exact hdb r0 hr0
        · exact hdb r hr
  | execSubmit rid eby erole cj notes now =>
      intro r hr
      simp only [step] at hr
      unfold page_execute_submit at hr
      split at hr
      · rcases requests_update_mem hr with h | ⟨r0, hr0, heq⟩
        · rw [h]; decide
        · rw [execution_upsert_requests] at hr0
          rw [heq]; exact hdb r0 hr0
      · exact hdb r hr

theorem run_status_mem : ∀ (ops : List Op) (db : DB),
    (∀ r ∈ db.requests, r.status ∈ REQ_STATUS) →
    ∀ r ∈ (run ops db).requests, r.status ∈ REQ_STATUS := by
  intro ops
  induction ops with
  | nil => intro db hdb; exact hdb
  | cons op rest ih =>
      intro db hdb
      exact ih (step op db) (step_status_mem hdb op)

/-- The default `approval_routing_json` installed by `db_init_and_migrate`
(app.py lines 234-237): one step for IN, two steps (안전 then 공사) for OUT. -/
def defaultRouting : List (String × List String) :=
  [("IN", ["공사"]), ("OUT", ["안전", "공사"])]

/-- Concrete per-step uuids for the C1 traces. -/
def c1Ids : Nat → String := fun i => if i = 1 then "a1" else "a2"

/-- A concrete OUT request draft. -/
def c1Data : ReqData :=
  { status := none, kind := "OUT", company_name := some "ACME",
    item_name := some "rebar", item_type := none, work_type := none,
    date := some "2026-10-12", time_from := some "06:00",
    time_to := some "07:00", gate := some "1GATE", vehicle_type := none,
    vehicle_ton := some "5", vehicle_count := some 1,
    driver_name := some "기사", driver_phone := some "010-0000-0000",
    notes := none, requester_name := some "홍길동",
    requester_role := some "협력사", risk_level := some "LOW",
    sic_training_url := none }

/-- Trace A, first part: submit an OUT request (two approval steps), then
reject step `a1`.  The request becomes `REJECTED` while step `a2` is still
`PENDING`. -/
def c1Mid : DB :=
  run [Op.submit c1Ids "r1" "t0" c1Data defaultRouting,
       Op.mark "a1" "REJECT" "김안전" "안전" none none "서류 미비" "t1"] dbInit

/-- Trace A, second part: approve the still-pending step `a2`; the pending
count hits zero and `req_update_status` flips the `REJECTED` request to
`APPROVED`. -/
def c1Final : DB :=
  step (Op.mark "a2" "APPROVE" "김공사" "공사" none none "" "t2") c1Mid

/-- Trace B: submit an IN request, attach the three required photos while
it is still `PENDING_APPROVAL`, then click the execute button.
`page_execute` only warns when the request is not approved, so the click
goes through and sets `DONE` directly. -/
def c1Photo : DB :=
  run [Op.submit c1Ids "r2" "t0" { c1Data with kind := "IN" } defaultRouting,
       Op.addPhoto "p1" "r2" (some "pre_load") (some "상차 전(촬영)") "f1" "t1",
       Op.addPhoto "p2" "r2" (some "post_load") (some "상차 후(촬영)") "f2" "t2",
       Op.addPhoto "p3" "r2" (some "area_ctrl") (some "하역/통제구간(촬영)")
         "f3" "t3"] dbInit

/-- Trace B final state: the execute click on the pending request. -/
def c1Done : DB :=
  step (Op.execSubmit "r2" "김실행" "공사" "cj" "" "t4") c1Photo

/-- **C1 counterexample.** Two executable traces violate the claimed
lifecycle graph.  Trace A: after submitting an OUT request (steps 안전,
공사) and rejecting step 1, the request is `REJECTED`; approving the
still-pending step 2 then flips it to `APPROVED` — an operation moving a
`REJECTED` request to `APPROVED`.  Trace B: a freshly submitted request
(`PENDING_APPROVAL`, never approved) with the three required photos is
taken directly to `DONE` by the execute click, which only warns on
non-approved requests. -/
theorem lifecycle_graph_counterexample :
    (req_get c1Mid "r1").map (fun r => r.status) = some "REJECTED"
    ∧ (req_get c1Final "r1").map (fun r => r.status) = some "APPROVED"
    ∧ (req_get c1Photo "r2").map (fun r => r.status) = some "PENDING_APPROVAL"
    ∧ (req_get c1Done "r2").map (fun r => r.status) = some "DONE" := by
  refine ⟨?_, ?_, ?_, ?_⟩ <;> decide

/-- **C1 (amended).** Every reachable request status stays within the
five-label vocabulary `REQ_STATUS` (and submission always starts a request
at `PENDING_APPROVAL`, see `submit_defaults`), but the edge structure of
the lifecycle graph is not enforced: the execute page only warns on a
non-approved request, so `PENDING_APPROVAL` can move directly to `DONE`,
and approving the remaining pending steps of a `REJECTED` request moves it
to `APPROVED` (see `lifecycle_graph_counterexample`). -/
theorem status_vocabulary_invariant (ops : List Op) :
    ∀ r ∈ (run ops dbInit).requests, r.status ∈ REQ_STATUS :=
  run_status_mem ops dbInit (by intro r hr; simp [dbInit] at hr)

/-- Witness for the amended C1 theorem at a concrete trace: the request of
trace B ends with status `DONE`, which lies in `REQ_STATUS`. -/
theorem status_vocabulary_invariant_witness :
    ∃ r ∈ (run [Op.submit c1Ids "r2" "t0" { c1Data with kind := "IN" }
        defaultRouting] dbInit).requests, r.status ∈ REQ_STATUS :=
  ⟨req_insert_row "r2" "t0" { c1Data with kind := "IN" },
   by decide,
   status_vocabulary_invariant
     [Op.submit c1Ids "r2" "t0" { c1Data with kind := "IN" } defaultRouting]
     (req_insert_row "r2" "t0" { c1Data with kind := "IN" }) (by decide)⟩

theorem approval_mark_audit (db : DB) (aid action sname srole rr now : String)
    (sp stp : Option String) :
    (approval_mark db aid action sname srole sp stp rr now).1.audit_log =
      db.audit_log := by
  unfold approval_mark
  split
  · rfl
  · split
    · rfl
    · split
      · dsimp only
        split
        · rfl
        · rfl
      · rfl

theorem step_audit (op : Op) (db : DB) :
    (step op db).audit_log = db.audit_log := by
  cases op with
  | submit ids rid now data routing => rfl
  | mark aid action sname srole sp stp reason now =>
      exact approval_mark_audit db aid action sname srole reason now sp stp
  | addPhoto pid rid slot label fpath now => rfl
  | execView rid now =>
      show (page_execute_view db rid now).audit_log = db.audit_log
      unfold page_execute_view
      split
      · rfl
      · split <;> rfl
  | execSubmit rid eby erole cj notes now =>
      show ((page_execute_submit db rid eby erole cj notes now).1).audit_log =
        db.audit_log
      unfold page_execute_submit
      split <;> rfl

/-- **C6 (amended).** No operation ever appends an `AuditLogEntry`: the
schema created by `db_init_and_migrate` has no audit-log table (see
`dbInitTables` and `AuditLogEntry`), and the audit-log component of the
state is left unchanged by every sequence of operations — in particular a
successful state-changing operation appends zero, not one, entries. -/
theorem audit_log_never_written : ∀ (ops : List Op) (db : DB),
    (run ops db).audit_log = db.audit_log := by
  intro ops
  induction ops with
  | nil => intro db; rfl
  | cons op rest ih =>
      intro db
      calc (run rest (step op db)).audit_log
          = (step op db).audit_log := ih (step op db)
        _ = db.audit_log := step_audit op db

/-- Concrete per-step uuids for the C6 trace. -/
def c6Ids : Nat → String := fun i => if i = 1 then "b1" else "b2"

/-- **C6 counterexample.** A successful submit — a state-changing operation
that inserts one request row and one approval row — appends zero
`AuditLogEntry` rows, not exactly one: the code has no audit-log table and
never writes such an entry. -/
theorem audit_log_counterexample :
    (run [Op.submit c6Ids "r6" "t0" c1Data defaultRouting]
        dbInit).requests.length = 1
    ∧ (run [Op.submit c6Ids "r6" "t0" c1Data defaultRouting]
        dbInit).approvals.length = 2
    ∧ (run [Op.submit c6Ids "r6" "t0" c1Data defaultRouting]
        dbInit).audit_log.length = 0 := by
  refine ⟨?_, ?_, ?_⟩ <;> decide

end GateApp
